import Mathlib

/-!
Shallow embedding of the `unc-token` crate (a fixed-point token-amount type).

Modelling conventions:
* Rust `u128` values are embedded as `Nat` together with explicit bounds
  (`≤ U128MAX`) where overflow matters; the primitive checked/saturating
  operations of `u128` are modelled in the `U128` namespace.
* Rust strings are embedded as `List Char`; indices are character positions,
  which coincide with Rust's byte indices on ASCII input.  `str::trim` is
  modelled over the ASCII fragment of `char::is_whitespace`.
* Fallible Rust functions return `Option` / an explicit result type; the
  out-of-bounds `str::split_at` panic is modelled as an explicit outcome.
-/

/-- Largest value representable in a Rust `u128`. -/
def U128MAX : Nat := 2 ^ 128 - 1

namespace U128

/-- Model of `u128::checked_add`. -/
def checked_add (a b : Nat) : Option Nat :=
  if a + b ≤ U128MAX then some (a + b) else none

/-- Model of `u128::checked_sub`. -/
def checked_sub (a b : Nat) : Option Nat :=
  if b ≤ a then some (a - b) else none

/-- Model of `u128::checked_mul`. -/
def checked_mul (a b : Nat) : Option Nat :=
  if a * b ≤ U128MAX then some (a * b) else none

/-- Model of `u128::checked_div` (none exactly on a zero divisor). -/
def checked_div (a b : Nat) : Option Nat :=
  if b = 0 then none else some (a / b)

/-- Model of `u128::saturating_add`. -/
def saturating_add (a b : Nat) : Nat := min (a + b) U128MAX

/-- Model of `u128::saturating_sub` (`Nat` subtraction already clamps at 0). -/
def saturating_sub (a b : Nat) : Nat := a - b

/-- Model of `u128::saturating_mul`. -/
def saturating_mul (a b : Nat) : Nat := min (a * b) U128MAX

/-- Model of `u128::saturating_div` for a nonzero divisor (unsigned division
never saturates; the zero-divisor panic is unreachable from its only caller,
which guards the divisor first). -/
def saturating_div (a b : Nat) : Nat := a / b

end U128

/-- `const ONE_UNC: u128 = 10_u128.pow(24)` from `lib.rs`. -/
def ONE_UNC : Nat := 10 ^ 24

/-- `const ONE_MILLIUNC: u128 = 10_u128.pow(21)` from `lib.rs`. -/
def ONE_MILLIUNC : Nat := 10 ^ 21

/-- The `UncToken` struct from `lib.rs`: a wrapper around a `u128` count of
the smallest (yocto) unit. -/
structure UncToken where
  inner : Nat
  deriving DecidableEq, Repr

/-- `UncToken::from_yoctonear` (identity constructor; also spelled
`from_yoctounc` / `from_attounc` at call sites of the crate). -/
def UncToken.from_yoctonear (inner : Nat) : UncToken := ⟨inner⟩

/-- `UncToken::from_millinear` (also spelled `from_milliunc` at call sites):
unchecked multiplication by the milli scale. -/
def UncToken.from_millinear (inner : Nat) : UncToken := ⟨inner * ONE_MILLIUNC⟩

/-- `UncToken::from_unc`: unchecked multiplication by the base-unit scale. -/
def UncToken.from_unc (inner : Nat) : UncToken := ⟨inner * ONE_UNC⟩

/-- `UncToken::as_yoctonear` (also spelled `as_yoctounc` at call sites). -/
def UncToken.as_yoctonear (t : UncToken) : Nat := t.inner

/-- `UncToken::as_near`: floor conversion to base units. -/
def UncToken.as_near (t : UncToken) : Nat := t.inner / ONE_UNC

/-- `UncToken::as_millinear`: floor conversion to milli units. -/
def UncToken.as_millinear (t : UncToken) : Nat := t.inner / ONE_MILLIUNC

/-- `UncToken::is_zero`. -/
def UncToken.is_zero (t : UncToken) : Bool := t.inner == 0

/-- The `derive(PartialEq)` equality test on `UncToken` (field-wise). -/
def UncToken.beq (a b : UncToken) : Bool := a.inner == b.inner

/-- The `derive(PartialOrd)` strict-less test on `UncToken`: the single-field
struct derive compares the `inner` fields. -/
def UncToken.blt (a b : UncToken) : Bool := a.inner < b.inner

/-- The `derive(PartialOrd)` less-or-equal test on `UncToken`. -/
def UncToken.ble (a b : UncToken) : Bool := a.inner ≤ b.inner

/-- The `derive(Ord)` three-way comparison on `UncToken`: the single-field
struct derive delegates to the integer comparison of the `inner` fields. -/
def UncToken.cmp (a b : UncToken) : Ordering := compare a.inner b.inner

/-- `UncToken::checked_add` from `lib.rs`. -/
def UncToken.checked_add (x rhs : UncToken) : Option UncToken :=
  match U128.checked_add x.as_yoctonear rhs.as_yoctonear with
  | some unc => some (UncToken.from_yoctonear unc)
  | none => none

/-- `UncToken::checked_sub` from `lib.rs`. -/
def UncToken.checked_sub (x rhs : UncToken) : Option UncToken :=
  match U128.checked_sub x.as_yoctonear rhs.as_yoctonear with
  | some unc => some (UncToken.from_yoctonear unc)
  | none => none

/-- `UncToken::checked_mul` from `lib.rs` (scalar right-hand side). -/
def UncToken.checked_mul (x : UncToken) (rhs : Nat) : Option UncToken :=
  match U128.checked_mul x.as_yoctonear rhs with
  | some unc => some (UncToken.from_yoctonear unc)
  | none => none

/-- `UncToken::checked_div` from `lib.rs` (scalar right-hand side). -/
def UncToken.checked_div (x : UncToken) (rhs : Nat) : Option UncToken :=
  match U128.checked_div x.as_yoctonear rhs with
  | some unc => some (UncToken.from_yoctonear unc)
  | none => none

/-- `UncToken::saturating_add` from `lib.rs`. -/
def UncToken.saturating_add (x rhs : UncToken) : UncToken :=
  UncToken.from_yoctonear (U128.saturating_add x.as_yoctonear rhs.as_yoctonear)

/-- `UncToken::saturating_sub` from `lib.rs`. -/
def UncToken.saturating_sub (x rhs : UncToken) : UncToken :=
  UncToken.from_yoctonear (U128.saturating_sub x.as_yoctonear rhs.as_yoctonear)

/-- `UncToken::saturating_mul` from `lib.rs`. -/
def UncToken.saturating_mul (x : UncToken) (rhs : Nat) : UncToken :=
  UncToken.from_yoctonear (U128.saturating_mul x.as_yoctonear rhs)

/-- `UncToken::saturating_div` from `lib.rs`: an explicit zero-divisor guard
returning the zero value, otherwise unsigned saturating division. -/
def UncToken.saturating_div (x : UncToken) (rhs : Nat) : UncToken :=
  if rhs = 0 then UncToken.from_yoctonear 0
  else UncToken.from_yoctonear (U128.saturating_div x.as_yoctonear rhs)

/-- Zero-padding to a minimum width, as Rust's `{:03}` / `{:02}` format
specifiers do. -/
def zeroPad (w n : Nat) : String :=
  String.mk (List.replicate (w - (toString n).length) '0') ++ toString n

/-- The Tier-3 magnitude of `display.rs`:
`self.as_yoctounc().saturating_add(ONE_MILLIUNC - 1) / ONE_MILLIUNC`. -/
def UncToken.displayMilliMagnitude (t : UncToken) : Nat :=
  U128.saturating_add t.as_yoctonear (ONE_MILLIUNC - 1) / ONE_MILLIUNC

/-- The Tier-4 magnitude of `display.rs`:
`self.as_yoctounc().saturating_add(10 * ONE_MILLIUNC - 1) / ONE_MILLIUNC / 10`. -/
def UncToken.displayCentiMagnitude (t : UncToken) : Nat :=
  U128.saturating_add t.as_yoctonear (10 * ONE_MILLIUNC - 1) / ONE_MILLIUNC / 10

/-- The `Display` implementation for `UncToken` from `display.rs`, with the
`write!` format strings flattened into string concatenation. -/
def UncToken.display (t : UncToken) : String :=
  if UncToken.beq t (UncToken.from_yoctonear 0) then "0 UNC"
  else if UncToken.blt t (UncToken.from_millinear 1) then "<0.001 UNC"
  else if UncToken.ble t (UncToken.from_millinear 999) then
    "0." ++ zeroPad 3 (UncToken.displayMilliMagnitude t) ++ " UNC"
  else
    toString (UncToken.displayCentiMagnitude t / 100) ++ "." ++
      zeroPad 2 (UncToken.displayCentiMagnitude t % 100) ++ " UNC"

/-- The tier (1-4) selected by the branches of the `Display` implementation. -/
def UncToken.tierOf (t : UncToken) : Nat :=
  if UncToken.beq t (UncToken.from_yoctonear 0) then 1
  else if UncToken.blt t (UncToken.from_millinear 1) then 2
  else if UncToken.ble t (UncToken.from_millinear 999) then 3
  else 4

/-- Numeric value (in thousandths of a base unit) denoted by the rendered
string: 0 for the literal tiers 1-2, the printed milli magnitude in Tier 3,
and ten times the printed centi magnitude in Tier 4. -/
def UncToken.displayedThousandths (t : UncToken) : Nat :=
  if UncToken.beq t (UncToken.from_yoctonear 0) then 0
  else if UncToken.blt t (UncToken.from_millinear 1) then 0
  else if UncToken.ble t (UncToken.from_millinear 999) then
    UncToken.displayMilliMagnitude t
  else 10 * UncToken.displayCentiMagnitude t

/-- `char::is_ascii_alphabetic`. -/
def isAsciiAlphabetic (c : Char) : Bool :=
  (65 ≤ c.toNat && c.toNat ≤ 90) || (97 ≤ c.toNat && c.toNat ≤ 122)

/-- `char::is_ascii_digit`. -/
def isAsciiDigit (c : Char) : Bool := 48 ≤ c.toNat && c.toNat ≤ 57

/-- The ASCII fragment of `char::is_whitespace` (space, tab, line feed,
vertical tab, form feed, carriage return). -/
def rustIsWhitespace (c : Char) : Bool :=
  c.toNat = 32 || c.toNat = 9 || c.toNat = 10 || c.toNat = 11 ||
    c.toNat = 12 || c.toNat = 13

/-- `str::find`: index of the first character satisfying the predicate. -/
def rustFind (p : Char → Bool) : List Char → Option Nat
  | [] => none
  | c :: cs => if p c then some 0 else (rustFind p cs).map (· + 1)

/-- The leading-whitespace removal half of `str::trim`. -/
def trimStart (l : List Char) : List Char := l.dropWhile rustIsWhitespace

/-- The trailing-whitespace removal half of `str::trim`. -/
def trimEnd : List Char → List Char
  | [] => []
  | c :: cs =>
    match trimEnd cs with
    | [] => if rustIsWhitespace c then [] else [c]
    | r => c :: r

/-- `str::trim`. -/
def rustTrim (l : List Char) : List Char := trimEnd (trimStart l)

/-- `str::to_ascii_uppercase`. -/
def toAsciiUppercase (l : List Char) : List Char :=
  l.map fun c => if 97 ≤ c.toNat && c.toNat ≤ 122 then Char.ofNat (c.toNat - 32) else c

/-- `DecimalNumberParsingError` from the crate's `utils` module (declared in
`lib.rs` re-exports and matched in the `from_str.rs` tests); payloads carry
the offending substring. -/
inductive DecimalNumberParsingError where
  | InvalidNumber (s : List Char)
  | LongWhole (s : List Char)
  | LongFractional (s : List Char)
  deriving DecidableEq, Repr

/-- `UncTokenError` from `error.rs`. -/
inductive UncTokenError where
  | InvalidTokensAmount (e : DecimalNumberParsingError)
  | InvalidTokenUnit (s : List Char)
  deriving DecidableEq, Repr

/-- Split a fragment at its first dot: the whole-digit run, and the remainder
after the dot when a dot is present. -/
def splitFirstDot : List Char → List Char × Option (List Char)
  | [] => ([], none)
  | c :: cs =>
    if c = '.' then ([], some cs)
    else
      let (w, r) := splitFirstDot cs
      (c :: w, r)

/-- Numeric value of a run of ASCII digits. -/
def natOfDigits (l : List Char) : Nat :=
  l.foldl (fun a c => a * 10 + (c.toNat - 48)) 0

/-- Modelled from the spec: `parse_decimal_number` of the crate's `utils`
module, whose source file is absent from the sources (only its callers and
re-exported error type appear).  Per spec §4.1: the fragment must be ASCII
digits with at most one decimal point (no sign, no internal whitespace, no
empty runs), violations fail with `InvalidNumber(fragment)`; a fractional run
longer than the scale's power-of-ten exponent fails with
`LongFractional(fractional-run)`; a result exceeding the 128-bit ceiling fails
with `LongWhole(whole-run)`; otherwise the result is
`whole × scale + fractional × (scale / 10^len(fractional))`. -/
def parse_decimal_number (s : List Char) (scale : Nat) :
    Except DecimalNumberParsingError Nat :=
  match splitFirstDot s with
  | (whole, none) =>
    if whole ≠ [] ∧ whole.all isAsciiDigit then
      if natOfDigits whole * scale ≤ U128MAX then .ok (natOfDigits whole * scale)
      else .error (.LongWhole whole)
    else .error (.InvalidNumber s)
  | (whole, some frac) =>
    if whole ≠ [] ∧ whole.all isAsciiDigit ∧ frac ≠ [] ∧ frac.all isAsciiDigit then
      if scale % 10 ^ frac.length = 0 then
        let n := natOfDigits whole * scale + natOfDigits frac * (scale / 10 ^ frac.length)
        if n ≤ U128MAX then .ok n else .error (.LongWhole whole)
      else .error (.LongFractional frac)
    else .error (.InvalidNumber s)

/-- The unit-suffix table of `from_str.rs`: smallest-unit aliases map to
scale 1, base-unit aliases map to `ONE_UNC`. -/
def unitScale (unit : List Char) : Option Nat :=
  if unit = "YN".toList ∨ unit = "YUNC".toList ∨ unit = "YOCTOUNC".toList then some 1
  else if unit = "UNC".toList ∨ unit = "N".toList then some ONE_UNC
  else none

/-- Outcome of `FromStr::from_str`: success, a typed error, or the panic that
`str::split_at` raises when its index exceeds the string length. -/
inductive FromStrResult where
  | ok (t : UncToken)
  | err (e : UncTokenError)
  | panics
  deriving DecidableEq, Repr

/-- `FromStr::from_str` for `UncToken` from `from_str.rs`.  Note the split
index is computed with `find` on the RAW input, but the split is applied to
the trimmed, uppercased input. -/
def from_str (s : List Char) : FromStrResult :=
  match rustFind isAsciiAlphabetic s with
  | none => .err (.InvalidTokenUnit s)
  | some i =>
    let u := toAsciiUppercase (rustTrim s)
    if i ≤ u.length then
      let value := u.take i
      let unit := u.drop i
      match unitScale unit with
      | none => .err (.InvalidTokenUnit s)
      | some unit_precision =>
        match parse_decimal_number (rustTrim value) unit_precision with
        | .error e => .err (.InvalidTokensAmount e)
        | .ok n => .ok (UncToken.from_yoctonear n)
    else .panics

example : from_str "0.123456 unc".toList =
    .ok (UncToken.from_yoctonear 123456000000000000000000) := by decide
example : from_str "11.123456 unc".toList =
    .ok (UncToken.from_yoctonear 11123456000000000000000000) := by decide
example : from_str "123456 YN".toList = .ok (UncToken.from_yoctonear 123456) := by decide
example : from_str "1.1.1 UNC".toList =
    .err (.InvalidTokensAmount (.InvalidNumber "1.1.1".toList)) := by decide
example : from_str "1. 0 unc".toList =
    .err (.InvalidTokensAmount (.InvalidNumber "1. 0".toList)) := by decide
example : from_str "0 pas".toList = .err (.InvalidTokenUnit "0 pas".toList) := by decide
example : from_str "0".toList = .err (.InvalidTokenUnit "0".toList) := by decide
example : from_str "-1 UNC".toList =
    .err (.InvalidTokensAmount (.InvalidNumber "-1".toList)) := by decide
example : from_str ".055 yunc".toList =
    .err (.InvalidTokensAmount (.InvalidNumber ".055".toList)) := by decide
example : from_str "100.55.".toList = .err (.InvalidTokenUnit "100.55.".toList) := by decide
example : from_str "100.1111122222333 yunc".toList =
    .err (.InvalidTokensAmount (.LongFractional "1111122222333".toList)) := by decide
example : from_str "  1 unc".toList = .err (.InvalidTokenUnit "  1 unc".toList) := by decide
example : from_str " a".toList = .err (.InvalidTokenUnit " a".toList) := by decide
example : from_str "   a".toList = .panics := by decide

example : UncToken.display (UncToken.from_yoctonear 0) = "0 UNC" := by decide
example : UncToken.display (UncToken.from_yoctonear 1) = "<0.001 UNC" := by decide
example : UncToken.display (UncToken.from_yoctonear (10 ^ 21)) = "0.001 UNC" := by decide
example : UncToken.display (UncToken.from_yoctonear (10 ^ 21 + 1)) = "0.002 UNC" := by decide
example : UncToken.display (UncToken.from_yoctonear (10 ^ 21 * 999 + 1)) = "1.00 UNC" := by decide
example : UncToken.display (UncToken.from_yoctonear (10 ^ 24 + 1)) = "1.01 UNC" := by decide
example : UncToken.display (UncToken.from_yoctonear (10 ^ 21 * 100500)) = "100.50 UNC" := by decide

/-- Claim C2: for every value, `checked_div` by zero returns none while
`saturating_div` by zero returns the zero value; for every nonzero divisor
both return the value holding the floor of the count divided by the divisor. -/
theorem c2_division_by_zero_policy (a : Nat) (ha : a ≤ U128MAX) :
    UncToken.checked_div (UncToken.from_yoctonear a) 0 = none ∧
    UncToken.saturating_div (UncToken.from_yoctonear a) 0 = UncToken.from_yoctonear 0 ∧
    ∀ d : Nat, d ≠ 0 →
      UncToken.checked_div (UncToken.from_yoctonear a) d =
        some (UncToken.from_yoctonear (a / d)) ∧
      UncToken.saturating_div (UncToken.from_yoctonear a) d =
        UncToken.from_yoctonear (a / d) := by
  refine ⟨?_, ?_, fun d hd => ⟨?_, ?_⟩⟩ <;>
    simp_all [UncToken.checked_div, UncToken.saturating_div, U128.checked_div,
      U128.saturating_div, UncToken.from_yoctonear, UncToken.as_yoctonear]

/-- Evaluation of claim C2 at the concrete count 10 with divisor 3. -/
theorem c2_division_by_zero_policy_witness :
    UncToken.checked_div (UncToken.from_yoctonear 10) 3 =
      some (UncToken.from_yoctonear 3) ∧
    UncToken.saturating_div (UncToken.from_yoctonear 10) 0 =
      UncToken.from_yoctonear 0 := by
  have h := c2_division_by_zero_policy 10 (by decide)
  exact ⟨(h.2.2 3 (by decide)).1, h.2.1⟩

/-- Claim C3: `checked_add` returns the sum exactly when it fits in 128 bits
and none otherwise, `checked_sub` returns the difference exactly when the
subtrahend does not exceed the minuend, and `checked_mul` by a scalar returns
the product exactly when it fits in 128 bits. -/
theorem c3_checked_arithmetic (a b : Nat) (ha : a ≤ U128MAX) (hb : b ≤ U128MAX) :
    (UncToken.checked_add (UncToken.from_yoctonear a) (UncToken.from_yoctonear b) =
        some (UncToken.from_yoctonear (a + b)) ↔ a + b ≤ U128MAX) ∧
    (UncToken.checked_add (UncToken.from_yoctonear a) (UncToken.from_yoctonear b) =
        none ↔ U128MAX < a + b) ∧
    (UncToken.checked_sub (UncToken.from_yoctonear a) (UncToken.from_yoctonear b) =
        some (UncToken.from_yoctonear (a - b)) ↔ b ≤ a) ∧
    (UncToken.checked_sub (UncToken.from_yoctonear a) (UncToken.from_yoctonear b) =
        none ↔ a < b) ∧
    ∀ k : Nat, k ≤ U128MAX →
      (UncToken.checked_mul (UncToken.from_yoctonear a) k =
          some (UncToken.from_yoctonear (a * k)) ↔ a * k ≤ U128MAX) ∧
      (UncToken.checked_mul (UncToken.from_yoctonear a) k = none ↔ U128MAX < a * k) := by
  refine ⟨?_, ?_, ?_, ?_, fun k hk => ⟨?_, ?_⟩⟩ <;>
    · simp only [UncToken.checked_add, UncToken.checked_sub, UncToken.checked_mul,
        U128.checked_add, U128.checked_sub, U128.checked_mul,
        UncToken.from_yoctonear, UncToken.as_yoctonear]
      split <;> simp_all <;> omega

/-- Evaluation of claim C3 at the concrete counts 7 and 5 with scalar 3. -/
theorem c3_checked_arithmetic_witness :
    (UncToken.checked_add (UncToken.from_yoctonear 7) (UncToken.from_yoctonear 5) =
        some (UncToken.from_yoctonear 12) ↔ (12 : Nat) ≤ U128MAX) ∧
    (UncToken.checked_sub (UncToken.from_yoctonear 7) (UncToken.from_yoctonear 5) =
        some (UncToken.from_yoctonear 2) ↔ (5 : Nat) ≤ 7) ∧
    (UncToken.checked_mul (UncToken.from_yoctonear 7) 3 =
        some (UncToken.from_yoctonear 21) ↔ (21 : Nat) ≤ U128MAX) := by
  have h := c3_checked_arithmetic 7 5 (by decide) (by decide)
  exact ⟨h.1, h.2.2.1, (h.2.2.2.2 3 (by decide)).1⟩

/-- Claim C10: the derived ordering on the value type agrees with the numeric
ordering of the raw smallest-unit counts. -/
theorem c10_derived_order_agrees (a b : Nat) (ha : a ≤ U128MAX) (hb : b ≤ U128MAX) :
    (UncToken.blt (UncToken.from_yoctonear a) (UncToken.from_yoctonear b) = true ↔ a < b) ∧
    (UncToken.cmp (UncToken.from_yoctonear a) (UncToken.from_yoctonear b) =
        Ordering.lt ↔ a < b) := by
  constructor
  · simp [UncToken.blt, UncToken.from_yoctonear]
  · simpa [UncToken.cmp, UncToken.from_yoctonear] using Nat.compare_eq_lt

/-- Evaluation of claim C10 at the concrete counts 3 and 4. -/
theorem c10_derived_order_agrees_witness :
    UncToken.cmp (UncToken.from_yoctonear 3) (UncToken.from_yoctonear 4) =
      Ordering.lt ↔ (3 : Nat) < 4 :=
  (c10_derived_order_agrees 3 4 (by decide) (by decide)).2

/-- Literal value of the milli scale constant. -/
theorem ONE_MILLIUNC_eq : ONE_MILLIUNC = 1000000000000000000000 := by
  norm_num [ONE_MILLIUNC]

/-- Literal value of the base-unit scale constant. -/
theorem ONE_UNC_eq : ONE_UNC = 1000000000000000000000000 := by
  norm_num [ONE_UNC]

/-- Literal value of the `u128` ceiling. -/
theorem U128MAX_eq : U128MAX = 340282366920938463463374607431768211455 := by
  norm_num [U128MAX]

/-- The formatter renders the zero value as the literal zero string. -/
theorem UncToken.display_zero : UncToken.display (UncToken.from_yoctonear 0) = "0 UNC" := by
  decide

/-- The formatter renders every nonzero value below the milli threshold as the
fixed Tier-2 literal. -/
theorem UncToken.display_lt_milli (c : Nat) (h0 : 0 < c) (h1 : c < ONE_MILLIUNC) :
    UncToken.display (UncToken.from_yoctonear c) = "<0.001 UNC" := by
  have h0' : UncToken.beq (UncToken.from_yoctonear c) (UncToken.from_yoctonear 0) = false := by
    simp only [UncToken.beq, UncToken.from_yoctonear, beq_eq_false_iff_ne, ne_eq]
    omega
  have h1' : UncToken.blt (UncToken.from_yoctonear c) (UncToken.from_millinear 1) = true := by
    simp only [UncToken.blt, UncToken.from_yoctonear, UncToken.from_millinear,
      one_mul, decide_eq_true_eq]
    exact h1
  simp [UncToken.display, h0', h1']

/-- Branch facts for the Tier-3 rendering. -/
theorem UncToken.display_tier3 (c : Nat) (h1 : ONE_MILLIUNC ≤ c)
    (h2 : c ≤ 999 * ONE_MILLIUNC) :
    UncToken.display (UncToken.from_yoctonear c) =
      "0." ++ zeroPad 3 ((c + (ONE_MILLIUNC - 1)) / ONE_MILLIUNC) ++ " UNC" := by
  have h0' : UncToken.beq (UncToken.from_yoctonear c) (UncToken.from_yoctonear 0) = false := by
    simp only [UncToken.beq, UncToken.from_yoctonear, beq_eq_false_iff_ne, ne_eq]
    simp only [ONE_MILLIUNC_eq] at h1
    omega
  have h1' : UncToken.blt (UncToken.from_yoctonear c) (UncToken.from_millinear 1) = false := by
    simp only [UncToken.blt, UncToken.from_yoctonear, UncToken.from_millinear,
      one_mul, decide_eq_false_iff_not, not_lt]
    exact h1
  have h2' : UncToken.ble (UncToken.from_yoctonear c) (UncToken.from_millinear 999) = true := by
    simp only [UncToken.ble, UncToken.from_yoctonear, UncToken.from_millinear,
      decide_eq_true_eq]
    simpa [mul_comm] using h2
  have hsat : U128.saturating_add c (ONE_MILLIUNC - 1) = c + (ONE_MILLIUNC - 1) := by
    simp only [U128.saturating_add]
    apply Nat.min_eq_left
    simp only [ONE_MILLIUNC_eq, U128MAX_eq] at h2 ⊢
    omega
  have hmag : UncToken.displayMilliMagnitude (UncToken.from_yoctonear c) =
      (c + (ONE_MILLIUNC - 1)) / ONE_MILLIUNC := by
    simp only [UncToken.displayMilliMagnitude, UncToken.as_yoctonear,
      UncToken.from_yoctonear, hsat]
  unfold UncToken.display
  rw [h0', h1', h2', hmag]
  simp

/-- Branch facts for the Tier-4 rendering, below the saturation threshold. -/
theorem UncToken.display_tier4 (c : Nat) (h1 : 999 * ONE_MILLIUNC < c)
    (h2 : c + (10 * ONE_MILLIUNC - 1) ≤ U128MAX) :
    UncToken.display (UncToken.from_yoctonear c) =
      toString ((c + (10 * ONE_MILLIUNC - 1)) / (10 * ONE_MILLIUNC) / 100) ++ "." ++
        zeroPad 2 ((c + (10 * ONE_MILLIUNC - 1)) / (10 * ONE_MILLIUNC) % 100) ++ " UNC" := by
  have h0' : UncToken.beq (UncToken.from_yoctonear c) (UncToken.from_yoctonear 0) = false := by
    simp only [UncToken.beq, UncToken.from_yoctonear, beq_eq_false_iff_ne, ne_eq]
    simp only [ONE_MILLIUNC_eq] at h1
    omega
  have h1' : UncToken.blt (UncToken.from_yoctonear c) (UncToken.from_millinear 1) = false := by
    simp only [UncToken.blt, UncToken.from_yoctonear, UncToken.from_millinear,
      one_mul, decide_eq_false_iff_not, not_lt]
    simp only [ONE_MILLIUNC_eq] at h1 ⊢
    omega
  have h2' : UncToken.ble (UncToken.from_yoctonear c) (UncToken.from_millinear 999) = false := by
    simp only [UncToken.ble, UncToken.from_yoctonear, UncToken.from_millinear,
      decide_eq_false_iff_not, not_le]
    simpa [mul_comm] using h1
  have hsat : U128.saturating_add c (10 * ONE_MILLIUNC - 1) = c + (10 * ONE_MILLIUNC - 1) := by
    simp only [U128.saturating_add]
    exact Nat.min_eq_left h2
  have hmag : UncToken.displayCentiMagnitude (UncToken.from_yoctonear c) =
      (c + (10 * ONE_MILLIUNC - 1)) / (10 * ONE_MILLIUNC) := by
    simp only [UncToken.displayCentiMagnitude, UncToken.as_yoctonear,
      UncToken.from_yoctonear, hsat, Nat.div_div_eq_div_mul, mul_comm ONE_MILLIUNC 10]
  unfold UncToken.display
  rw [h0', h1', h2', hmag]
  simp

/-- Claim C6: the formatter renders the zero value as "0 UNC" and every value
strictly between zero and one milli unit as the literal "<0.001 UNC"; in
particular the count 1 renders as "<0.001 UNC". -/
theorem c6_zero_and_subthreshold_display :
    UncToken.display (UncToken.from_yoctonear 0) = "0 UNC" ∧
    (∀ c : Nat, 0 < c → c < ONE_MILLIUNC →
      UncToken.display (UncToken.from_yoctonear c) = "<0.001 UNC") ∧
    UncToken.display (UncToken.from_yoctonear 1) = "<0.001 UNC" :=
  ⟨UncToken.display_zero,
   fun c h0 h1 => UncToken.display_lt_milli c h0 h1,
   UncToken.display_lt_milli 1 (by decide) (by decide)⟩

/-- Evaluation of claim C6 at the concrete count 5. -/
theorem c6_zero_and_subthreshold_display_witness :
    UncToken.display (UncToken.from_yoctonear 5) = "<0.001 UNC" :=
  c6_zero_and_subthreshold_display.2.1 5 (by decide) (by decide)

/-- Claim C5: for counts between one and 999 milli units inclusive the
formatter renders Tier 3, whose magnitude is the ceiling of count divided by
the milli scale computed as (count + milli - 1) / milli, printed zero-padded
to three digits after "0.".  The final two conjuncts state that the printed
magnitude is the exact ceiling: its multiple of the milli scale is the least
one reaching the count. -/
theorem c5_tier3_ceiling_display (c : Nat) (h1 : ONE_MILLIUNC ≤ c)
    (h2 : c ≤ 999 * ONE_MILLIUNC) :
    UncToken.display (UncToken.from_yoctonear c) =
      "0." ++ zeroPad 3 ((c + (ONE_MILLIUNC - 1)) / ONE_MILLIUNC) ++ " UNC" ∧
    c ≤ (c + (ONE_MILLIUNC - 1)) / ONE_MILLIUNC * ONE_MILLIUNC ∧
    (c + (ONE_MILLIUNC - 1)) / ONE_MILLIUNC * ONE_MILLIUNC < c + ONE_MILLIUNC := by
  refine ⟨UncToken.display_tier3 c h1 h2, ?_, ?_⟩ <;>
    · simp only [ONE_MILLIUNC_eq] at *
      omega

/-- Evaluation of claim C5 at the concrete count of one milli unit. -/
theorem c5_tier3_ceiling_display_witness :
    UncToken.display (UncToken.from_yoctonear ONE_MILLIUNC) = "0.001 UNC" := by
  have h := (c5_tier3_ceiling_display ONE_MILLIUNC (le_refl _)
    (by simp only [ONE_MILLIUNC_eq]; omega)).1
  rw [h]
  decide

/-- Counterexample to claim C1 as stated: at the count `u128::MAX` (which is
strictly greater than 999 milli units) the formatter's Tier-4 magnitude is NOT
the exact ceiling of count / (10 × milli scale), because the add-then-divide
idiom saturates at the `u128` ceiling; the rendered string likewise differs
from the one the claimed magnitude would produce. -/
theorem c1_tier4_saturation_counterexample :
    999 * ONE_MILLIUNC < U128MAX ∧
    UncToken.displayCentiMagnitude (UncToken.from_yoctonear U128MAX) ≠
      (U128MAX + (10 * ONE_MILLIUNC - 1)) / (10 * ONE_MILLIUNC) ∧
    UncToken.display (UncToken.from_yoctonear U128MAX) ≠
      toString ((U128MAX + (10 * ONE_MILLIUNC - 1)) / (10 * ONE_MILLIUNC) / 100) ++ "." ++
        zeroPad 2 ((U128MAX + (10 * ONE_MILLIUNC - 1)) / (10 * ONE_MILLIUNC) % 100) ++
        " UNC" := by
  refine ⟨by decide, by decide, by decide⟩

/-- Claim C1 (amended): for every count strictly above 999 milli units for
which the added rounding offset still fits in 128 bits, the formatter renders
Tier 4 with magnitude the exact ceiling of count / (10 × milli scale) computed
as (count + 10 × milli - 1) / (10 × milli), printing the integer part, a dot,
and the 2-digit zero-padded fractional part; for larger counts the sum
saturates at the `u128` ceiling instead.  The count one above the Tier-3
ceiling renders as "1.00 UNC".  The two middle conjuncts state that the
magnitude is the exact ceiling: its multiple of 10 × milli is the least one
reaching the count. -/
theorem c1_tier4_ceiling_display (c : Nat) (h1 : 999 * ONE_MILLIUNC < c)
    (h2 : c + (10 * ONE_MILLIUNC - 1) ≤ U128MAX) :
    UncToken.display (UncToken.from_yoctonear c) =
      toString ((c + (10 * ONE_MILLIUNC - 1)) / (10 * ONE_MILLIUNC) / 100) ++ "." ++
        zeroPad 2 ((c + (10 * ONE_MILLIUNC - 1)) / (10 * ONE_MILLIUNC) % 100) ++ " UNC" ∧
    c ≤ (c + (10 * ONE_MILLIUNC - 1)) / (10 * ONE_MILLIUNC) * (10 * ONE_MILLIUNC) ∧
    (c + (10 * ONE_MILLIUNC - 1)) / (10 * ONE_MILLIUNC) * (10 * ONE_MILLIUNC) <
      c + 10 * ONE_MILLIUNC ∧
    UncToken.display (UncToken.from_yoctonear (999 * ONE_MILLIUNC + 1)) = "1.00 UNC" := by
  refine ⟨UncToken.display_tier4 c h1 h2, ?_, ?_, by decide⟩ <;>
    · simp only [ONE_MILLIUNC_eq] at *
      omega

/-- Evaluation of claim C1 (amended) at the concrete count of one base unit. -/
theorem c1_tier4_ceiling_display_witness :
    UncToken.display (UncToken.from_yoctonear ONE_UNC) = "1.00 UNC" := by
  have h := (c1_tier4_ceiling_display ONE_UNC
    (by simp only [ONE_MILLIUNC_eq, ONE_UNC_eq]; omega)
    (by simp only [ONE_MILLIUNC_eq, ONE_UNC_eq, U128MAX_eq]; omega)).1
  rw [h]
  decide

/-- Arithmetic characterization of the tier selection. -/
theorem UncToken.tierOf_spec (c : Nat) :
    UncToken.tierOf (UncToken.from_yoctonear c) =
      if c = 0 then 1
      else if c < ONE_MILLIUNC then 2
      else if c ≤ 999 * ONE_MILLIUNC then 3
      else 4 := by
  simp [UncToken.tierOf, UncToken.beq, UncToken.blt, UncToken.ble,
    UncToken.from_yoctonear, UncToken.from_millinear, one_mul, mul_comm]

/-- Arithmetic characterization of the numeric value denoted by the rendered
string. -/
theorem UncToken.displayedThousandths_spec (c : Nat) :
    UncToken.displayedThousandths (UncToken.from_yoctonear c) =
      if c = 0 then 0
      else if c < ONE_MILLIUNC then 0
      else if c ≤ 999 * ONE_MILLIUNC then
        U128.saturating_add c (ONE_MILLIUNC - 1) / ONE_MILLIUNC
      else 10 * (U128.saturating_add c (10 * ONE_MILLIUNC - 1) / ONE_MILLIUNC / 10) := by
  simp [UncToken.displayedThousandths, UncToken.beq, UncToken.blt, UncToken.ble,
    UncToken.from_yoctonear, UncToken.from_millinear, one_mul, mul_comm,
    UncToken.displayMilliMagnitude, UncToken.displayCentiMagnitude, UncToken.as_yoctonear]

/-- The saturating add is monotone in its first argument. -/
theorem U128.saturating_add_le_saturating_add (a b k : Nat) (h : a ≤ b) :
    U128.saturating_add a k ≤ U128.saturating_add b k :=
  min_le_min (Nat.add_le_add_right h k) (le_refl U128MAX)

/-- Claim C9: formatting is monotonic within a tier.  For two counts in the
same tier, the smaller count's rendered string denotes a numeric value (in
thousandths of a base unit, the resolution shared by the tiers) at most the
larger count's; in the literal tiers 1 and 2 the rendered strings are equal. -/
theorem c9_display_monotone_within_tier (a b : Nat) (ha : a ≤ U128MAX)
    (hb : b ≤ U128MAX) (hab : a < b)
    (ht : UncToken.tierOf (UncToken.from_yoctonear a) =
      UncToken.tierOf (UncToken.from_yoctonear b)) :
    (UncToken.tierOf (UncToken.from_yoctonear a) ≤ 2 →
      UncToken.display (UncToken.from_yoctonear a) =
        UncToken.display (UncToken.from_yoctonear b)) ∧
    UncToken.displayedThousandths (UncToken.from_yoctonear a) ≤
      UncToken.displayedThousandths (UncToken.from_yoctonear b) := by
  rw [UncToken.tierOf_spec, UncToken.tierOf_spec] at ht
  rw [UncToken.tierOf_spec, UncToken.displayedThousandths_spec,
    UncToken.displayedThousandths_spec]
  by_cases ha0 : a = 0 <;> by_cases hb0 : b = 0 <;>
    by_cases ha1 : a < ONE_MILLIUNC <;> by_cases hb1 : b < ONE_MILLIUNC <;>
    by_cases ha2 : a ≤ 999 * ONE_MILLIUNC <;> by_cases hb2 : b ≤ 999 * ONE_MILLIUNC <;>
    simp only [ha0, hb0, ha1, hb1, ha2, hb2, if_true, if_false] at ht ⊢ <;>
    first
    | omega
    | (refine ⟨fun h => ?_, ?_⟩
       · first
         | omega
         | (rw [UncToken.display_lt_milli a (by omega) ha1,
              UncToken.display_lt_milli b (by omega) hb1])
       · first
         | omega
         | exact Nat.div_le_div_right
             (U128.saturating_add_le_saturating_add a b _ (le_of_lt hab))
         | exact Nat.mul_le_mul_left 10 (Nat.div_le_div_right (Nat.div_le_div_right
             (U128.saturating_add_le_saturating_add a b _ (le_of_lt hab)))))

/-- Evaluation of claim C9 at the concrete Tier-3 counts of one and two milli
units. -/
theorem c9_display_monotone_within_tier_witness :
    UncToken.displayedThousandths (UncToken.from_yoctonear ONE_MILLIUNC) ≤
      UncToken.displayedThousandths (UncToken.from_yoctonear (2 * ONE_MILLIUNC)) :=
  (c9_display_monotone_within_tier ONE_MILLIUNC (2 * ONE_MILLIUNC)
    (by simp only [ONE_MILLIUNC_eq, U128MAX_eq]; omega)
    (by simp only [ONE_MILLIUNC_eq, U128MAX_eq]; omega)
    (by simp only [ONE_MILLIUNC_eq]; omega)
    (by rw [UncToken.tierOf_spec, UncToken.tierOf_spec]
        simp only [ONE_MILLIUNC_eq]
        norm_num)).2

/-- A fragment with at least two dots splits at the first dot into a whole run
and a remainder that still contains a dot. -/
theorem splitFirstDot_of_two_dots (l : List Char) (h : 2 ≤ l.count '.') :
    ∃ w r, splitFirstDot l = (w, some r) ∧ 1 ≤ r.count '.' := by
  induction l with
  | nil => simp at h
  | cons c cs ih =>
    by_cases hc : c = '.'
    · subst hc
      have h2 : 2 ≤ cs.count '.' + 1 := by simpa [List.count_cons] using h
      exact ⟨[], cs, by simp [splitFirstDot], by omega⟩
    · have h' : 2 ≤ cs.count '.' := by simpa [List.count_cons, hc] using h
      obtain ⟨w, r, hsp, hr⟩ := ih h'
      exact ⟨c :: w, r, by simp [splitFirstDot, hc, hsp], hr⟩

/-- The decimal parser rejects a fragment containing at least two dots with
the invalid-number error carrying the whole fragment. -/
theorem parse_decimal_number_two_dots (s : List Char) (scale : Nat)
    (h : 2 ≤ s.count '.') :
    parse_decimal_number s scale = .error (.InvalidNumber s) := by
  obtain ⟨w, r, hsp, hr⟩ := splitFirstDot_of_two_dots s h
  have hmem : '.' ∈ r := by
    rw [← List.count_pos_iff]
    omega
  have hrd : ¬(r.all isAsciiDigit = true) := by
    rw [List.all_eq_true]
    intro hall
    have := hall '.' hmem
    simp [isAsciiDigit] at this
  simp only [parse_decimal_number, hsp]
  rw [if_neg]
  intro hcond
  exact hrd hcond.2.2.2

/-- Claim C8: whenever the unit suffix is recognized but the (trimmed) numeric
fragment contains more than one decimal point, the parsing entry point fails
with the invalid-number error carrying the offending fragment, wrapped in the
invalid-amount variant; there is no partial success. -/
theorem c8_double_dot_rejected (s : List Char) (i scale : Nat)
    (hfind : rustFind isAsciiAlphabetic s = some i)
    (hunit : unitScale ((toAsciiUppercase (rustTrim s)).drop i) = some scale)
    (hdots : 2 ≤ (rustTrim ((toAsciiUppercase (rustTrim s)).take i)).count '.') :
    from_str s = .err (.InvalidTokensAmount
      (.InvalidNumber (rustTrim ((toAsciiUppercase (rustTrim s)).take i)))) := by
  have hne : (toAsciiUppercase (rustTrim s)).drop i ≠ [] := by
    intro h
    rw [h] at hunit
    simp [unitScale, ONE_UNC] at hunit
  have hlen : i ≤ (toAsciiUppercase (rustTrim s)).length := by
    by_contra hgt
    push_neg at hgt
    exact hne (List.drop_eq_nil_of_le (le_of_lt hgt))
  simp only [from_str, hfind]
  rw [if_pos hlen, hunit]
  simp [parse_decimal_number_two_dots _ scale hdots]

/-- Evaluation of claim C8 at the concrete input "1.1.1 UNC". -/
theorem c8_double_dot_rejected_witness :
    from_str "1.1.1 UNC".toList =
      .err (.InvalidTokensAmount (.InvalidNumber "1.1.1".toList)) := by
  have h := c8_double_dot_rejected ("1.1.1 UNC".toList) 6 ONE_UNC
    (by decide) (by decide) (by decide)
  rw [h]
  decide

/-- Claim C7: parsing "0.123456 UNC" yields exactly the value whose
smallest-unit count is 123456 × 10^18. -/
theorem c7_parse_base_unit_fraction :
    from_str "0.123456 UNC".toList =
      FromStrResult.ok (UncToken.from_yoctonear (123456 * 10 ^ 18)) := by
  decide

/-- An ASCII-alphabetic character is not whitespace. -/
theorem isAsciiAlphabetic_not_whitespace (c : Char)
    (h : isAsciiAlphabetic c = true) : rustIsWhitespace c = false := by
  simp only [isAsciiAlphabetic, Bool.or_eq_true, Bool.and_eq_true,
    decide_eq_true_eq] at h
  simp only [rustIsWhitespace, Bool.or_eq_false_iff, decide_eq_false_iff_not]
  omega

/-- The index of the first non-whitespace-satisfying character found in a
list stays strictly inside the list once trailing whitespace is removed. -/
theorem rustFind_lt_trimEnd_length (p : Char → Bool)
    (hp : ∀ c, p c = true → rustIsWhitespace c = false) :
    ∀ (l : List Char) (i : Nat), rustFind p l = some i → i < (trimEnd l).length := by
  intro l
  induction l with
  | nil => intro i hf; simp [rustFind] at hf
  | cons c cs ih =>
    intro i hf
    simp only [rustFind] at hf
    by_cases hc : p c = true
    · rw [if_pos hc] at hf
      injection hf with h
      subst h
      show 0 < (trimEnd (c :: cs)).length
      simp only [trimEnd]
      cases htc : trimEnd cs with
      | nil => simp [hp c hc]
      | cons x xs => simp
    · rw [if_neg hc] at hf
      cases hcs : rustFind p cs with
      | none => rw [hcs] at hf; simp at hf
      | some j =>
        rw [hcs] at hf
        simp at hf
        have hj := ih j hcs
        have hne : trimEnd cs ≠ [] := by
          intro h
          rw [h] at hj
          simp at hj
        simp only [trimEnd]
        cases htc : trimEnd cs with
        | nil => exact absurd htc hne
        | cons x xs =>
          rw [htc] at hj
          simp only [List.length_cons] at hj ⊢
          omega

/-- Counterexample to claim C4 as stated: on the input "  1 unc" (leading
whitespace) the first alphabetic character of the raw input sits at index 4
and the raw suffix from that index uppercases to the recognized base-unit
alias "UNC", yet the entry point returns `InvalidUnit` — because the index
found on the raw input is applied to the trimmed input, the suffix actually
matched is "C". -/
theorem c4_raw_split_counterexample :
    from_str "  1 unc".toList =
      FromStrResult.err (UncTokenError.InvalidTokenUnit "  1 unc".toList) ∧
    rustFind isAsciiAlphabetic "  1 unc".toList = some 4 ∧
    toAsciiUppercase (List.drop 4 "  1 unc".toList) = "UNC".toList ∧
    unitScale (toAsciiUppercase (List.drop 4 "  1 unc".toList)) = some ONE_UNC := by
  refine ⟨by decide, by decide, by decide, by decide⟩

/-- Claim C4 (amended): for every input without leading whitespace, the entry
point splits the trimmed, uppercased input at the index of the first
alphabetic character of the raw input (for such inputs the raw and trimmed
indices coincide); a recognized suffix maps to its scale (the smallest-unit
aliases to 1, the base-unit aliases to 10^24) and the trimmed numeric fragment
is delegated to the decimal parser at that scale, while any other suffix, or
the absence of any alphabetic character, yields `InvalidUnit` carrying the
original input. -/
theorem c4_unit_resolution (s : List Char) (hs : trimStart s = s) :
    (rustFind isAsciiAlphabetic s = none →
      from_str s = FromStrResult.err (UncTokenError.InvalidTokenUnit s)) ∧
    (∀ i, rustFind isAsciiAlphabetic s = some i →
      (unitScale ((toAsciiUppercase (rustTrim s)).drop i) = none →
        from_str s = FromStrResult.err (UncTokenError.InvalidTokenUnit s)) ∧
      (∀ scale, unitScale ((toAsciiUppercase (rustTrim s)).drop i) = some scale →
        from_str s =
          match parse_decimal_number
              (rustTrim ((toAsciiUppercase (rustTrim s)).take i)) scale with
          | .error e => FromStrResult.err (UncTokenError.InvalidTokensAmount e)
          | .ok n => FromStrResult.ok (UncToken.from_yoctonear n))) ∧
    unitScale "YN".toList = some 1 ∧ unitScale "YUNC".toList = some 1 ∧
    unitScale "YOCTOUNC".toList = some 1 ∧ unitScale "UNC".toList = some ONE_UNC ∧
    unitScale "N".toList = some ONE_UNC := by
  refine ⟨?_, ?_, by decide, by decide, by decide, by decide, by decide⟩
  · intro hnone
    simp [from_str, hnone]
  · intro i hfind
    have hlen : i ≤ (toAsciiUppercase (rustTrim s)).length := by
      have h1 := rustFind_lt_trimEnd_length isAsciiAlphabetic
        isAsciiAlphabetic_not_whitespace s i hfind
      have h2 : rustTrim s = trimEnd s := by rw [rustTrim, hs]
      rw [h2, toAsciiUppercase, List.length_map]
      omega
    constructor
    · intro hnone
      simp only [from_str, hfind]
      rw [if_pos hlen, hnone]
    · intro scale hsome
      simp only [from_str, hfind]
      rw [if_pos hlen, hsome]

/-- Evaluation of claim C4 (amended) at the concrete input "1 unc". -/
theorem c4_unit_resolution_witness :
    from_str "1 unc".toList = FromStrResult.ok (UncToken.from_yoctonear ONE_UNC) := by
  have h := ((c4_unit_resolution "1 unc".toList (by decide)).2.1 2
    (by decide)).2 ONE_UNC (by decide)
  rw [h]
  decide
